import Mathlib

/-!
Shallow embedding of `core/chaincode/chaincode_support.go` (package chaincode)
from the fabric repository, together with theorems checking the spec's claims
about the invocation orchestrator.

Modelling conventions:
* Go errors are modelled as `String` (the formatted error message).
  `errors.Wrapf(err, msg)` / `errors.WithMessage(err, msg)` render as
  `msg ++ ": " ++ err`, which is how pkg/errors prints a wrapped error.
* Go `nil` pointers are `Option.none`.
* Protobuf payload bytes are modelled by the inductive `Bytes`: opaque raw
  bytes, a marshalled `Response`, or a marshalled `ChaincodeInput`.
  `proto.Unmarshal` into a `Response` succeeds exactly on `Bytes.encResponse`.
* The collaborators (handler registry, Lifecycle, Launcher, stream handler)
  are function-valued fields of `ChaincodeSupport`; the orchestrator's calls
  to them are recorded in an explicit event trace so that claims of the form
  "does not call X" are statable.
-/

/-- Go errors, modelled as their rendered message text. -/
abbrev GoError := String

/-- `pb.Response`: status, message, and opaque payload bytes. -/
structure Response where
  Status : Int
  Message : String
  Payload : String
deriving DecidableEq, Repr

/-- `pb.ChaincodeEvent`: chaincode id, transaction id, event name, payload. -/
structure ChaincodeEvent where
  ChaincodeId : String
  TxId : String
  EventName : String
  Payload : String
deriving DecidableEq, Repr

/-- `pb.ChaincodeInput`: argument list plus proposal decorations. -/
structure ChaincodeInput where
  Args : List String
  Decorations : List (String × String)
deriving DecidableEq, Repr

/-- Opaque byte strings exchanged in protocol messages: raw bytes, or the
protobuf encoding of a `Response` or of a `ChaincodeInput`. -/
inductive Bytes where
  | raw (s : String)
  | encResponse (r : Response)
  | encInput (i : ChaincodeInput)
deriving DecidableEq, Repr

/-- Rendering of payload bytes by Go's `%s` format verb. -/
def Bytes.asString : Bytes → String
  | .raw s => s
  | .encResponse _ => "(marshalled response)"
  | .encInput _ => "(marshalled input)"

/-- `proto.Marshal` on a `ChaincodeInput`; for these messages marshalling
cannot fail, so it always returns `.ok`. -/
def protoMarshalInput (i : ChaincodeInput) : Except GoError Bytes :=
  .ok (.encInput i)

/-- `proto.Unmarshal` of payload bytes into a `pb.Response`: succeeds exactly
when the bytes are the encoding of a response. -/
def protoUnmarshalResponse : Bytes → Except GoError Response
  | .encResponse r => .ok r
  | _ => .error "proto: cannot parse invalid wire-format data"

/-- `pb.ChaincodeMessage_Type` values, as their protobuf enum integers. -/
def ChaincodeMessage_INIT : Int := 3

/-- `pb.ChaincodeMessage_TRANSACTION`. -/
def ChaincodeMessage_TRANSACTION : Int := 5

/-- `pb.ChaincodeMessage_COMPLETED`. -/
def ChaincodeMessage_COMPLETED : Int := 6

/-- `pb.ChaincodeMessage_ERROR`. -/
def ChaincodeMessage_ERROR : Int := 7

/-- `pb.ChaincodeMessage`: type, payload bytes, transaction id, channel id,
and an optional chaincode event carried by terminal responses. -/
structure ChaincodeMessage where
  «Type» : Int
  Payload : Bytes
  Txid : String
  ChannelId : String
  ChaincodeEvent : Option ChaincodeEvent
deriving DecidableEq, Repr

/-- `pb.ChaincodeID`: name, version, path. -/
structure ChaincodeID where
  Name : String
  Version : String
  Path : String
deriving DecidableEq, Repr

/-- `pb.ChaincodeSpec`: the chaincode identity plus the invocation input. -/
structure ChaincodeSpec where
  ChaincodeId : Option ChaincodeID
  Input : ChaincodeInput
deriving DecidableEq, Repr

/-- `pb.ChaincodeInvocationSpec`: wraps a (possibly nil) chaincode spec. -/
structure ChaincodeInvocationSpec where
  ChaincodeSpec : Option ChaincodeSpec
deriving DecidableEq, Repr

/-- `pb.ChaincodeDeploymentSpec`: a (possibly nil) chaincode spec plus the
code package. -/
structure ChaincodeDeploymentSpec where
  ChaincodeSpec : Option ChaincodeSpec
  CodePackage : String
deriving DecidableEq, Repr

/-- Nil-safe getter `spec.GetChaincodeSpec()` on an invocation spec. -/
def ChaincodeInvocationSpec.GetChaincodeSpec (s : ChaincodeInvocationSpec) :=
  s.ChaincodeSpec

/-- Nil-safe getter `spec.GetChaincodeSpec()` on a deployment spec. -/
def ChaincodeDeploymentSpec.GetChaincodeSpec (s : ChaincodeDeploymentSpec) :=
  s.ChaincodeSpec

/-- Modelled from the spec: the nil-safe name accessor
`spec.GetChaincodeSpec().Name()` used by `Launch`; the `pb.ChaincodeSpec.Name`
helper lives in the protos package, outside this core. It reads the name out
of the chaincode identity, with the empty string for absent fields. -/
def chaincodeSpecName (cs : Option ChaincodeSpec) : String :=
  match cs with
  | none => ""
  | some csp =>
    match csp.ChaincodeId with
    | none => ""
    | some cid => cid.Name

/-- `ccprovider.CCContext`: the invocation context (channel id, name, version,
transaction id, proposal decorations). -/
structure CCContext where
  ChainID : String
  Name : String
  Version : String
  TxID : String
  ProposalDecorations : List (String × String)
deriving DecidableEq, Repr

/-- Modelled from the spec: `ccprovider.CCContext.GetCanonicalName` lives
outside this core; the canonical name is a pure function of (name, version),
the registry key `name ++ ":" ++ version`. -/
def CCContext.GetCanonicalName (c : CCContext) : String :=
  c.Name ++ ":" ++ c.Version

/-- `ccprovider.ChaincodeContainerInfo`: descriptor sufficient to start a
unit. -/
structure ChaincodeContainerInfo where
  Name : String
  Version : String
  Path : String
  ContainerType : String
deriving DecidableEq, Repr

/-- Modelled from the spec: `ccprovider.DeploymentSpecToChaincodeContainerInfo`
lives outside this core; it builds the container info directly from the
deployment descriptor's embedded chaincode identity. -/
def DeploymentSpecToChaincodeContainerInfo (spec : ChaincodeDeploymentSpec) :
    ChaincodeContainerInfo :=
  match spec.ChaincodeSpec with
  | none => { Name := "", Version := "", Path := "", ContainerType := "" }
  | some csp =>
    match csp.ChaincodeId with
    | none => { Name := "", Version := "", Path := "", ContainerType := "" }
    | some cid =>
      { Name := cid.Name, Version := cid.Version, Path := cid.Path
        ContainerType := "DOCKER" }

/-- The per-connection stream handler's external contract: a timeout-bound
`Execute` returning a Go-style (message, error) pair. -/
structure Handler where
  Execute : CCContext → ChaincodeMessage → Nat →
    Option ChaincodeMessage × Option GoError

/-- The handler registry's external contract: lookup by canonical name. -/
structure HandlerRegistry where
  Handler : String → Option Handler

/-- Calls the orchestrator makes on its collaborators, recorded as a trace. -/
inductive Event where
  | lifecycleLookup (chainID chaincodeName : String)
  | launcherLaunch (ccci : ChaincodeContainerInfo)
  | handlerExecute (cname : String) (msg : ChaincodeMessage)
deriving DecidableEq, Repr

/-- `ChaincodeSupport`: the orchestrator with its collaborators.
`Lifecycle` is `Lifecycle.ChaincodeContainerInfo`, `Launcher` is
`Launcher.Launch`. -/
structure ChaincodeSupport where
  ExecuteTimeout : Nat
  HandlerRegistry : HandlerRegistry
  Lifecycle : String → String → Except GoError ChaincodeContainerInfo
  Launcher : ChaincodeContainerInfo → Option GoError

/-- `LaunchInit`: fast path when already registered; otherwise build the
container info from the deployment descriptor, overwrite its version from the
context, and launch. Returns the Go error and the collaborator-call trace. -/
def ChaincodeSupport.LaunchInit (cs : ChaincodeSupport) (cccid : CCContext)
    (spec : ChaincodeDeploymentSpec) : Option GoError × List Event :=
  let cname := cccid.GetCanonicalName
  match cs.HandlerRegistry.Handler cname with
  | some _ => (none, [])
  | none =>
    let ccci := DeploymentSpecToChaincodeContainerInfo spec
    let ccci := { ccci with Version := cccid.Version }
    (cs.Launcher ccci, [Event.launcherLaunch ccci])

/-- `Launch`: fast path when already registered; otherwise resolve the
container info via Lifecycle by (channel, name) and launch. -/
def ChaincodeSupport.Launch (cs : ChaincodeSupport) (cccid : CCContext)
    (spec : ChaincodeInvocationSpec) : Option GoError × List Event :=
  let cname := cccid.GetCanonicalName
  match cs.HandlerRegistry.Handler cname with
  | some _ => (none, [])
  | none =>
    let chaincodeName := chaincodeSpecName spec.GetChaincodeSpec
    match cs.Lifecycle cccid.ChainID chaincodeName with
    | .error err =>
      (some ("[channel " ++ cccid.ChainID ++
          "] failed to get chaincode container info for " ++ chaincodeName ++
          ": " ++ err),
        [Event.lifecycleLookup cccid.ChainID chaincodeName])
    | .ok ccci =>
      (cs.Launcher ccci,
        [Event.lifecycleLookup cccid.ChainID chaincodeName,
          Event.launcherLaunch ccci])

/-- `createCCMessage`: marshal the input and build the request message. -/
def createCCMessage (messageType : Int) (cid : String) (txid : String)
    (cMsg : ChaincodeInput) : Except GoError ChaincodeMessage :=
  match protoMarshalInput cMsg with
  | .error err => .error err
  | .ok payload =>
    .ok { «Type» := messageType, Payload := payload, Txid := txid
          ChannelId := cid, ChaincodeEvent := none }

/-- `processChaincodeExecutionResult`: interpret the terminal message; stamp
any carried event with the unit name and transaction id before inspecting the
message type. Returns the Go triple (response, event, error). -/
def processChaincodeExecutionResult (cccid : CCContext)
    (resp : Option ChaincodeMessage) (err : Option GoError) :
    Option Response × Option ChaincodeEvent × Option GoError :=
  match err with
  | some e =>
    (none, none, some ("failed to execute transaction " ++ cccid.TxID ++
      ": " ++ e))
  | none =>
    match resp with
    | none => (none, none, some ("nil response from transaction " ++ cccid.TxID))
    | some resp =>
      let event := resp.ChaincodeEvent.map fun ev =>
        { ev with ChaincodeId := cccid.Name, TxId := cccid.TxID }
      if resp.«Type» = ChaincodeMessage_COMPLETED then
        match protoUnmarshalResponse resp.Payload with
        | .error e =>
          (none, none, some ("failed to unmarshal response for transaction " ++
            cccid.TxID ++ ": " ++ e))
        | .ok res => (some res, event, none)
      else if resp.«Type» = ChaincodeMessage_ERROR then
        (none, event,
          some ("transaction returned with failure: " ++ resp.Payload.asString))
      else
        (none, none, some ("unexpected response type " ++ toString resp.«Type» ++
          " for transaction " ++ cccid.TxID))

/-- `execute`: look up the handler by canonical name, fail with a dispatch
error if absent, otherwise delegate to the handler's `Execute` and wrap a
failure with "error sending". -/
def ChaincodeSupport.execute (cs : ChaincodeSupport) (cccid : CCContext)
    (msg : ChaincodeMessage) :
    (Option ChaincodeMessage × Option GoError) × List Event :=
  let cname := cccid.GetCanonicalName
  match cs.HandlerRegistry.Handler cname with
  | none => ((none, some ("unable to invoke chaincode " ++ cname)), [])
  | some handler =>
    match handler.Execute cccid msg cs.ExecuteTimeout with
    | (_, some err) =>
      ((none, some ("error sending: " ++ err)), [Event.handlerExecute cname msg])
    | (ccresp, none) => ((ccresp, none), [Event.handlerExecute cname msg])

/-- `InvokeInit`: ensure launch from the deployment descriptor first, then
check the spec, decorate the input, build an INIT message, and execute. -/
def ChaincodeSupport.InvokeInit (cs : ChaincodeSupport) (cccid : CCContext)
    (spec : ChaincodeDeploymentSpec) :
    (Option ChaincodeMessage × Option GoError) × List Event :=
  let cctyp := ChaincodeMessage_INIT
  match cs.LaunchInit cccid spec with
  | (some err, tr) => ((none, some err), tr)
  | (none, tr) =>
    match spec.GetChaincodeSpec with
    | none => ((none, some "chaincode spec is nil"), tr)
    | some chaincodeSpec =>
      let input := { chaincodeSpec.Input with
        Decorations := cccid.ProposalDecorations }
      match createCCMessage cctyp cccid.ChainID cccid.TxID input with
      | .error err =>
        ((none, some ("failed to create chaincode message: " ++ err)), tr)
      | .ok ccMsg =>
        let r := cs.execute cccid ccMsg
        (r.1, tr ++ r.2)

/-- `Invoke`: check the spec first, then ensure launch, decorate the input,
build a TRANSACTION message, and execute. -/
def ChaincodeSupport.Invoke (cs : ChaincodeSupport) (cccid : CCContext)
    (spec : ChaincodeInvocationSpec) :
    (Option ChaincodeMessage × Option GoError) × List Event :=
  let cctyp := ChaincodeMessage_TRANSACTION
  match spec.GetChaincodeSpec with
  | none => ((none, some "chaincode spec is nil"), [])
  | some chaincodeSpec =>
    match cs.Launch cccid spec with
    | (some err, tr) => ((none, some err), tr)
    | (none, tr) =>
      let input := { chaincodeSpec.Input with
        Decorations := cccid.ProposalDecorations }
      match createCCMessage cctyp cccid.ChainID cccid.TxID input with
      | .error err =>
        ((none, some ("failed to create chaincode message: " ++ err)), tr)
      | .ok ccMsg =>
        let r := cs.execute cccid ccMsg
        (r.1, tr ++ r.2)

/-- `ExecuteInit`: invoke for init and interpret the result. -/
def ChaincodeSupport.ExecuteInit (cs : ChaincodeSupport) (cccid : CCContext)
    (spec : ChaincodeDeploymentSpec) :
    (Option Response × Option ChaincodeEvent × Option GoError) × List Event :=
  let r := cs.InvokeInit cccid spec
  (processChaincodeExecutionResult cccid r.1.1 r.1.2, r.2)

/-- `Execute`: invoke and interpret the result. -/
def ChaincodeSupport.Execute (cs : ChaincodeSupport) (cccid : CCContext)
    (spec : ChaincodeInvocationSpec) :
    (Option Response × Option ChaincodeEvent × Option GoError) × List Event :=
  let r := cs.Invoke cccid spec
  (processChaincodeExecutionResult cccid r.1.1 r.1.2, r.2)

/-! ### Substring machinery, used to state "the error text mentions X" -/

/-- Does `l` contain `pat` as a contiguous segment? -/
def hasSub (pat : List Char) : List Char → Bool
  | [] => pat.isEmpty
  | c :: rest => pat.isPrefixOf (c :: rest) || hasSub pat rest

/-- `s` mentions `pat`: the text of `pat` occurs contiguously inside `s`. -/
def containsStr (s pat : String) : Prop :=
  ∃ a b : List Char, s.toList = a ++ pat.toList ++ b

theorem isPrefixOf_eq_true_iff (p l : List Char) :
    p.isPrefixOf l = true ↔ ∃ t, l = p ++ t := by
  induction p generalizing l with
  | nil => exact ⟨fun _ => ⟨l, rfl⟩, fun _ => by simp [List.isPrefixOf]⟩
  | cons a as ih =>
    cases l with
    | nil =>
      constructor
      · intro h; simp [List.isPrefixOf] at h
      · rintro ⟨t, h⟩; simp at h
    | cons b bs =>
      constructor
      · intro h
        simp only [List.isPrefixOf, Bool.and_eq_true, beq_iff_eq] at h
        obtain ⟨rfl, h2⟩ := h
        obtain ⟨t, rfl⟩ := (ih bs).1 h2
        exact ⟨t, rfl⟩
      · rintro ⟨t, h⟩
        simp only [List.cons_append, List.cons.injEq] at h
        obtain ⟨rfl, rfl⟩ := h
        simp only [List.isPrefixOf, Bool.and_eq_true, beq_iff_eq]
        exact ⟨by trivial, (ih _).2 ⟨t, rfl⟩⟩

theorem hasSub_iff (pat l : List Char) :
    hasSub pat l = true ↔ ∃ a b, l = a ++ pat ++ b := by
  induction l with
  | nil =>
    constructor
    · intro h
      have hp : pat = [] := by simpa [hasSub, List.isEmpty_iff] using h
      exact ⟨[], [], by simp [hp]⟩
    · rintro ⟨a, b, h⟩
      have h' : a ++ pat ++ b = [] := h.symm
      simp only [List.append_eq_nil] at h'
      simp [hasSub, List.isEmpty_iff, h'.1.2]
  | cons c rest ih =>
    simp only [hasSub, Bool.or_eq_true, ih, isPrefixOf_eq_true_iff]
    constructor
    · rintro (⟨t, ht⟩ | ⟨a, b, hab⟩)
      · exact ⟨[], t, by simpa using ht⟩
      · refine ⟨c :: a, b, ?_⟩
        rw [List.cons_append, List.cons_append, hab]
    · rintro ⟨a, b, hab⟩
      cases a with
      | nil => exact Or.inl ⟨b, by simpa using hab⟩
      | cons a0 a' =>
        simp only [List.cons_append, List.cons.injEq] at hab
        exact Or.inr ⟨a', b, hab.2⟩

theorem toList_append (s t : String) : (s ++ t).toList = s.toList ++ t.toList :=
  String.data_append s t

theorem containsStr_of_eq {s x m y : String} (h : s = x ++ m ++ y) :
    containsStr s m :=
  ⟨x.toList, y.toList, by simp [h, toList_append]⟩

theorem not_containsStr_of_hasSub_eq_false {s pat : String}
    (h : hasSub pat.toList s.toList = false) : ¬ containsStr s pat := by
  intro hc
  rw [(hasSub_iff pat.toList s.toList).2 hc] at h
  simp at h

/-! ### Concrete fixtures used by the witness theorems -/

/-- A concrete decoded response. -/
def respW : Response := { Status := 200, Message := "OK", Payload := "ok" }

/-- A concrete unstamped chaincode event, as emitted by a unit. -/
def eventW : ChaincodeEvent :=
  { ChaincodeId := "", TxId := "", EventName := "transfer", Payload := "evp" }

/-- A concrete invocation context. -/
def cccidW : CCContext :=
  { ChainID := "ch1", Name := "mycc", Version := "1.0", TxID := "tx1"
    ProposalDecorations := [("who", "alice")] }

/-- A handler whose `Execute` always yields the given (message, error) pair. -/
def constHandler (m : Option ChaincodeMessage) (e : Option GoError) : Handler :=
  { Execute := fun _ _ _ => (m, e) }

/-- A `ChaincodeSupport` whose registry maps exactly `cname` and whose
Lifecycle and Launcher collaborators always succeed. -/
def csWith (cname : String) (h : Option Handler) : ChaincodeSupport :=
  { ExecuteTimeout := 30
    HandlerRegistry := { Handler := fun n => if n = cname then h else none }
    Lifecycle := fun _ nm =>
      .ok { Name := nm, Version := "1.0", Path := "p", ContainerType := "DOCKER" }
    Launcher := fun _ => none }

/-- A concrete chaincode spec. -/
def specW : ChaincodeSpec :=
  { ChaincodeId := some { Name := "mycc", Version := "1.0", Path := "p" }
    Input := { Args := ["transfer"], Decorations := [] } }

/-- A concrete invocation spec wrapping `specW`. -/
def invSpecW : ChaincodeInvocationSpec := { ChaincodeSpec := some specW }

/-- A concrete deployment spec wrapping `specW`. -/
def depSpecW : ChaincodeDeploymentSpec :=
  { ChaincodeSpec := some specW, CodePackage := "pkg" }

/-- A terminal message with the fixture transaction and channel ids. -/
def msgOf (ty : Int) (pay : Bytes) (ev : Option ChaincodeEvent) :
    ChaincodeMessage :=
  { «Type» := ty, Payload := pay, Txid := "tx1", ChannelId := "ch1"
    ChaincodeEvent := ev }

/-- A concrete COMPLETED terminal message carrying `respW` and `eventW`. -/
def msgCompletedW : ChaincodeMessage :=
  msgOf ChaincodeMessage_COMPLETED (Bytes.encResponse respW) (some eventW)

/-- A handler that always answers with `msgCompletedW`. -/
def handlerCompletedW : Handler := constHandler (some msgCompletedW) none

/-- Support whose registry maps the fixture canonical name to
`handlerCompletedW`. -/
def csCompletedW : ChaincodeSupport :=
  csWith "mycc:1.0" (some handlerCompletedW)

/-! ### Claim theorems -/

/-- C1: for every COMPLETED response whose payload unmarshals into a
`Response`, Execute/ExecuteInit (via `processChaincodeExecutionResult`) return
that decoded response with a nil error, whether or not the message carries an
event; if the message carries a non-nil event, the returned event has
`ChaincodeId` set to the unit's name and `TxId` set to the context's
transaction id. The stamping happens only in
`processChaincodeExecutionResult`: `Invoke` hands the handler's message
through unchanged. -/
theorem C1_completed_success (cs : ChaincodeSupport) (cccid : CCContext)
    (msg : ChaincodeMessage) (r : Response)
    (spec : ChaincodeInvocationSpec) (csp : ChaincodeSpec)
    (dspec : ChaincodeDeploymentSpec) (dcsp : ChaincodeSpec) (h : Handler)
    (hty : msg.«Type» = ChaincodeMessage_COMPLETED)
    (hpay : msg.Payload = Bytes.encResponse r)
    (hreg : cs.HandlerRegistry.Handler cccid.GetCanonicalName = some h)
    (hexec : ∀ c m t, h.Execute c m t = (some msg, none))
    (hspec : spec.ChaincodeSpec = some csp)
    (hdspec : dspec.ChaincodeSpec = some dcsp) :
    processChaincodeExecutionResult cccid (some msg) none =
      (some r,
        msg.ChaincodeEvent.map fun ev =>
          { ev with ChaincodeId := cccid.Name, TxId := cccid.TxID },
        none)
    ∧ (cs.Invoke cccid spec).1 = (some msg, none)
    ∧ (cs.Execute cccid spec).1 =
      (some r,
        msg.ChaincodeEvent.map fun ev =>
          { ev with ChaincodeId := cccid.Name, TxId := cccid.TxID },
        none)
    ∧ (cs.ExecuteInit cccid dspec).1 =
      (some r,
        msg.ChaincodeEvent.map fun ev =>
          { ev with ChaincodeId := cccid.Name, TxId := cccid.TxID },
        none)
    ∧ (∀ ev, msg.ChaincodeEvent = some ev →
        (cs.Execute cccid spec).1.2.1 =
          some { ev with ChaincodeId := cccid.Name, TxId := cccid.TxID }
        ∧ (cs.ExecuteInit cccid dspec).1.2.1 =
          some { ev with ChaincodeId := cccid.Name, TxId := cccid.TxID }) := by
  have hproc : processChaincodeExecutionResult cccid (some msg) none =
      (some r,
        msg.ChaincodeEvent.map fun ev =>
          { ev with ChaincodeId := cccid.Name, TxId := cccid.TxID },
        none) := by
    simp [processChaincodeExecutionResult, hty, hpay, protoUnmarshalResponse]
  have hinv : (cs.Invoke cccid spec).1 = (some msg, none) := by
    simp [ChaincodeSupport.Invoke, ChaincodeInvocationSpec.GetChaincodeSpec,
      hspec, ChaincodeSupport.Launch, hreg, createCCMessage, protoMarshalInput,
      ChaincodeSupport.execute, hexec]
  have hinvinit : (cs.InvokeInit cccid dspec).1 = (some msg, none) := by
    simp [ChaincodeSupport.InvokeInit, ChaincodeDeploymentSpec.GetChaincodeSpec,
      hdspec, ChaincodeSupport.LaunchInit, hreg, createCCMessage,
      protoMarshalInput, ChaincodeSupport.execute, hexec]
  have hEx : (cs.Execute cccid spec).1 =
      (some r,
        msg.ChaincodeEvent.map fun ev =>
          { ev with ChaincodeId := cccid.Name, TxId := cccid.TxID },
        none) := by
    show processChaincodeExecutionResult cccid (cs.Invoke cccid spec).1.1
      (cs.Invoke cccid spec).1.2 = _
    rw [hinv]
    exact hproc
  have hExInit : (cs.ExecuteInit cccid dspec).1 =
      (some r,
        msg.ChaincodeEvent.map fun ev =>
          { ev with ChaincodeId := cccid.Name, TxId := cccid.TxID },
        none) := by
    show processChaincodeExecutionResult cccid (cs.InvokeInit cccid dspec).1.1
      (cs.InvokeInit cccid dspec).1.2 = _
    rw [hinvinit]
    exact hproc
  refine ⟨hproc, hinv, hEx, hExInit, ?_⟩
  intro ev hev
  constructor
  · rw [hEx]
    simp [hev]
  · rw [hExInit]
    simp [hev]

/-- Witness for C1 at a concrete registered handler returning a COMPLETED
message. -/
theorem C1_completed_success_witness :
    (csCompletedW.Execute cccidW invSpecW).1 =
      (some respW,
        some { ChaincodeId := "mycc", TxId := "tx1", EventName := "transfer"
               Payload := "evp" },
        none) :=
  (C1_completed_success csCompletedW cccidW msgCompletedW respW
    invSpecW specW depSpecW specW handlerCompletedW rfl rfl rfl
    (fun _ _ _ => rfl) rfl rfl).2.2.1

/-- A concrete ERROR terminal message with payload "insufficient funds". -/
def msgErrorW : ChaincodeMessage :=
  msgOf ChaincodeMessage_ERROR (Bytes.raw "insufficient funds") (some eventW)

/-- A handler that always answers with `msgErrorW`. -/
def handlerErrorW : Handler := constHandler (some msgErrorW) none

/-- Support whose registry maps the fixture canonical name to `handlerErrorW`. -/
def csErrorW : ChaincodeSupport := csWith "mycc:1.0" (some handlerErrorW)

/-- C2: an ERROR response yields a nil decoded response and a non-nil error
whose text contains the raw payload bytes; Execute/ExecuteInit never report
success on an ERROR response. -/
theorem C2_error_failure (cs : ChaincodeSupport) (cccid : CCContext)
    (msg : ChaincodeMessage) (spec : ChaincodeInvocationSpec)
    (csp : ChaincodeSpec) (dspec : ChaincodeDeploymentSpec)
    (dcsp : ChaincodeSpec) (h : Handler)
    (hty : msg.«Type» = ChaincodeMessage_ERROR)
    (hreg : cs.HandlerRegistry.Handler cccid.GetCanonicalName = some h)
    (hexec : ∀ c m t, h.Execute c m t = (some msg, none))
    (hspec : spec.ChaincodeSpec = some csp)
    (hdspec : dspec.ChaincodeSpec = some dcsp) :
    (processChaincodeExecutionResult cccid (some msg) none).1 = none
    ∧ (processChaincodeExecutionResult cccid (some msg) none).2.2 =
      some ("transaction returned with failure: " ++ msg.Payload.asString)
    ∧ containsStr ("transaction returned with failure: " ++ msg.Payload.asString)
      msg.Payload.asString
    ∧ (cs.Execute cccid spec).1.1 = none
    ∧ (cs.Execute cccid spec).1.2.2 =
      some ("transaction returned with failure: " ++ msg.Payload.asString)
    ∧ (cs.ExecuteInit cccid dspec).1.1 = none
    ∧ (cs.ExecuteInit cccid dspec).1.2.2 =
      some ("transaction returned with failure: " ++ msg.Payload.asString) := by
  have herr : processChaincodeExecutionResult cccid (some msg) none =
      (none,
        msg.ChaincodeEvent.map fun ev =>
          { ev with ChaincodeId := cccid.Name, TxId := cccid.TxID },
        some ("transaction returned with failure: " ++ msg.Payload.asString)) := by
    simp [processChaincodeExecutionResult, hty, ChaincodeMessage_ERROR,
      ChaincodeMessage_COMPLETED]
  have hinv : (cs.Invoke cccid spec).1 = (some msg, none) := by
    simp [ChaincodeSupport.Invoke, ChaincodeInvocationSpec.GetChaincodeSpec,
      hspec, ChaincodeSupport.Launch, hreg, createCCMessage, protoMarshalInput,
      ChaincodeSupport.execute, hexec]
  have hinvinit : (cs.InvokeInit cccid dspec).1 = (some msg, none) := by
    simp [ChaincodeSupport.InvokeInit, ChaincodeDeploymentSpec.GetChaincodeSpec,
      hdspec, ChaincodeSupport.LaunchInit, hreg, createCCMessage,
      protoMarshalInput, ChaincodeSupport.execute, hexec]
  have hEx : (cs.Execute cccid spec).1 =
      (none,
        msg.ChaincodeEvent.map fun ev =>
          { ev with ChaincodeId := cccid.Name, TxId := cccid.TxID },
        some ("transaction returned with failure: " ++ msg.Payload.asString)) := by
    show processChaincodeExecutionResult cccid (cs.Invoke cccid spec).1.1
      (cs.Invoke cccid spec).1.2 = _
    rw [hinv]
    exact herr
  have hExInit : (cs.ExecuteInit cccid dspec).1 =
      (none,
        msg.ChaincodeEvent.map fun ev =>
          { ev with ChaincodeId := cccid.Name, TxId := cccid.TxID },
        some ("transaction returned with failure: " ++ msg.Payload.asString)) := by
    show processChaincodeExecutionResult cccid (cs.InvokeInit cccid dspec).1.1
      (cs.InvokeInit cccid dspec).1.2 = _
    rw [hinvinit]
    exact herr
  refine ⟨by rw [herr], by rw [herr],
    ⟨"transaction returned with failure: ".toList, [], by simp [toList_append]⟩,
    by rw [hEx], by rw [hEx], by rw [hExInit], by rw [hExInit]⟩

/-- Witness for C2 at a handler returning ERROR with payload
"insufficient funds". -/
theorem C2_error_failure_witness :
    (csErrorW.Execute cccidW invSpecW).1.2.2 =
      some ("transaction returned with failure: " ++ "insufficient funds") :=
  (C2_error_failure csErrorW cccidW msgErrorW invSpecW specW depSpecW specW
    handlerErrorW rfl rfl (fun _ _ _ => rfl) rfl rfl).2.2.2.2.1

/-- A concrete non-terminal (READY) message. -/
def msgReadyW : ChaincodeMessage := msgOf 4 (Bytes.raw "x") none

/-- A handler that always answers with the non-terminal `msgReadyW`. -/
def handlerReadyW : Handler := constHandler (some msgReadyW) none

/-- Support whose registry maps the fixture canonical name to `handlerReadyW`. -/
def csReadyW : ChaincodeSupport := csWith "mycc:1.0" (some handlerReadyW)

/-- C3: a response type that is neither COMPLETED nor ERROR, a nil response
with a nil error, and a COMPLETED response whose payload fails to unmarshal
all produce a nil response together with a non-nil protocol error, both in
`processChaincodeExecutionResult` and end to end through `Execute`. -/
theorem C3_protocol_violation (cs : ChaincodeSupport) (cccid : CCContext)
    (msg : ChaincodeMessage) (spec : ChaincodeInvocationSpec)
    (csp : ChaincodeSpec) (h : Handler)
    (hreg : cs.HandlerRegistry.Handler cccid.GetCanonicalName = some h)
    (hspec : spec.ChaincodeSpec = some csp) :
    (msg.«Type» ≠ ChaincodeMessage_COMPLETED →
      msg.«Type» ≠ ChaincodeMessage_ERROR →
      processChaincodeExecutionResult cccid (some msg) none =
        (none, none, some ("unexpected response type " ++ toString msg.«Type» ++
          " for transaction " ++ cccid.TxID)))
    ∧ processChaincodeExecutionResult cccid none none =
      (none, none, some ("nil response from transaction " ++ cccid.TxID))
    ∧ (∀ e0, msg.«Type» = ChaincodeMessage_COMPLETED →
        protoUnmarshalResponse msg.Payload = .error e0 →
        processChaincodeExecutionResult cccid (some msg) none =
          (none, none, some ("failed to unmarshal response for transaction " ++
            cccid.TxID ++ ": " ++ e0)))
    ∧ ((∀ c m t, h.Execute c m t = (none, none)) →
        (cs.Execute cccid spec).1 =
          (none, none, some ("nil response from transaction " ++ cccid.TxID)))
    ∧ ((∀ c m t, h.Execute c m t = (some msg, none)) →
        msg.«Type» ≠ ChaincodeMessage_COMPLETED →
        msg.«Type» ≠ ChaincodeMessage_ERROR →
        (cs.Execute cccid spec).1 =
          (none, none, some ("unexpected response type " ++ toString msg.«Type» ++
            " for transaction " ++ cccid.TxID))) := by
  have hnil : processChaincodeExecutionResult cccid none none =
      (none, none, some ("nil response from transaction " ++ cccid.TxID)) := by
    simp [processChaincodeExecutionResult]
  have hunex : msg.«Type» ≠ ChaincodeMessage_COMPLETED →
      msg.«Type» ≠ ChaincodeMessage_ERROR →
      processChaincodeExecutionResult cccid (some msg) none =
        (none, none, some ("unexpected response type " ++ toString msg.«Type» ++
          " for transaction " ++ cccid.TxID)) := by
    intro h1 h2
    simp [processChaincodeExecutionResult, h1, h2]
  refine ⟨hunex, hnil, ?_, ?_, ?_⟩
  · intro e0 h1 h2
    simp [processChaincodeExecutionResult, h1, h2]
  · intro hexec
    have hinv : (cs.Invoke cccid spec).1 = (none, none) := by
      simp [ChaincodeSupport.Invoke, ChaincodeInvocationSpec.GetChaincodeSpec,
        hspec, ChaincodeSupport.Launch, hreg, createCCMessage,
        protoMarshalInput, ChaincodeSupport.execute, hexec]
    show processChaincodeExecutionResult cccid (cs.Invoke cccid spec).1.1
      (cs.Invoke cccid spec).1.2 = _
    rw [hinv]
    exact hnil
  · intro hexec h1 h2
    have hinv : (cs.Invoke cccid spec).1 = (some msg, none) := by
      simp [ChaincodeSupport.Invoke, ChaincodeInvocationSpec.GetChaincodeSpec,
        hspec, ChaincodeSupport.Launch, hreg, createCCMessage,
        protoMarshalInput, ChaincodeSupport.execute, hexec]
    show processChaincodeExecutionResult cccid (cs.Invoke cccid spec).1.1
      (cs.Invoke cccid spec).1.2 = _
    rw [hinv]
    exact hunex h1 h2

/-- Witness for C3 at a handler returning the non-terminal READY message. -/
theorem C3_protocol_violation_witness :
    (csReadyW.Execute cccidW invSpecW).1 =
      (none, none,
        some ("unexpected response type " ++ toString (4 : Int) ++
          " for transaction " ++ "tx1")) :=
  (C3_protocol_violation csReadyW cccidW msgReadyW invSpecW specW
    handlerReadyW rfl rfl).2.2.2.2 (fun _ _ _ => rfl) (by decide) (by decide)

/-- Support whose registry is empty. -/
def csEmptyW : ChaincodeSupport := csWith "mycc:1.0" none

/-- C4: when the canonical name has no registered handler, `execute` returns
immediately with a nil message and a dispatch error mentioning the canonical
name, performing no collaborator call at all. -/
theorem C4_dispatch_error (cs : ChaincodeSupport) (cccid : CCContext)
    (msg : ChaincodeMessage)
    (hreg : cs.HandlerRegistry.Handler cccid.GetCanonicalName = none) :
    cs.execute cccid msg =
      ((none, some ("unable to invoke chaincode " ++ cccid.GetCanonicalName)),
        [])
    ∧ containsStr ("unable to invoke chaincode " ++ cccid.GetCanonicalName)
      cccid.GetCanonicalName := by
  refine ⟨by simp [ChaincodeSupport.execute, hreg], ?_⟩
  exact ⟨"unable to invoke chaincode ".toList, [], by simp [toList_append]⟩

/-- Witness for C4 at an empty registry. -/
theorem C4_dispatch_error_witness :
    csEmptyW.execute cccidW msgReadyW =
      ((none, some ("unable to invoke chaincode " ++ cccidW.GetCanonicalName)),
        []) :=
  (C4_dispatch_error csEmptyW cccidW msgReadyW rfl).1

/-- C5: when a handler is already registered for the canonical name, `Launch`
and `LaunchInit` return a nil error with an empty collaborator-call trace (no
Lifecycle consultation, no `Launcher.Launch`), so two sequential
ensure-running calls perform no launch at all — in particular at most one. -/
theorem C5_launch_idempotent (cs : ChaincodeSupport) (cccid : CCContext)
    (spec : ChaincodeInvocationSpec) (dspec : ChaincodeDeploymentSpec)
    (h : Handler)
    (hreg : cs.HandlerRegistry.Handler cccid.GetCanonicalName = some h) :
    cs.Launch cccid spec = (none, [])
    ∧ cs.LaunchInit cccid dspec = (none, [])
    ∧ (cs.Launch cccid spec).2 ++ (cs.Launch cccid spec).2 = ([] : List Event)
    ∧ (cs.LaunchInit cccid dspec).2 ++ (cs.LaunchInit cccid dspec).2 =
      ([] : List Event) := by
  have h1 : cs.Launch cccid spec = (none, []) := by
    simp [ChaincodeSupport.Launch, hreg]
  have h2 : cs.LaunchInit cccid dspec = (none, []) := by
    simp [ChaincodeSupport.LaunchInit, hreg]
  exact ⟨h1, h2, by rw [h1]; rfl, by rw [h2]; rfl⟩

/-- Witness for C5 at a populated registry. -/
theorem C5_launch_idempotent_witness :
    csCompletedW.Launch cccidW invSpecW = (none, [])
    ∧ csCompletedW.LaunchInit cccidW depSpecW = (none, []) :=
  ⟨(C5_launch_idempotent csCompletedW cccidW invSpecW depSpecW
      handlerCompletedW rfl).1,
    (C5_launch_idempotent csCompletedW cccidW invSpecW depSpecW
      handlerCompletedW rfl).2.1⟩

/-- C6: `LaunchInit` never calls Lifecycle; on the slow path it launches the
container info built from the deployment descriptor with its version
overwritten from the context; `InvokeInit` then builds an INIT message
carrying the decorated constructor input and executes it. -/
theorem C6_launchinit_bypasses_lifecycle (cs : ChaincodeSupport)
    (cccid : CCContext) (dspec : ChaincodeDeploymentSpec)
    (dcsp : ChaincodeSpec) (h : Handler) :
    (∀ e ∈ (cs.LaunchInit cccid dspec).2, ∀ ch nm,
      e ≠ Event.lifecycleLookup ch nm)
    ∧ (cs.HandlerRegistry.Handler cccid.GetCanonicalName = none →
        cs.LaunchInit cccid dspec =
          (cs.Launcher
              { DeploymentSpecToChaincodeContainerInfo dspec with
                  Version := cccid.Version },
            [Event.launcherLaunch
              { DeploymentSpecToChaincodeContainerInfo dspec with
                  Version := cccid.Version }]))
    ∧ (cs.HandlerRegistry.Handler cccid.GetCanonicalName = some h →
        dspec.ChaincodeSpec = some dcsp →
        cs.InvokeInit cccid dspec =
          cs.execute cccid
            { «Type» := ChaincodeMessage_INIT
              Payload := Bytes.encInput
                { dcsp.Input with Decorations := cccid.ProposalDecorations }
              Txid := cccid.TxID, ChannelId := cccid.ChainID
              ChaincodeEvent := none }) := by
  refine ⟨?_, ?_, ?_⟩
  · intro e he ch nm
    simp only [ChaincodeSupport.LaunchInit] at he
    cases hl : cs.HandlerRegistry.Handler cccid.GetCanonicalName with
    | some hh =>
      rw [hl] at he
      simp at he
    | none =>
      rw [hl] at he
      simp at he
      subst he
      simp
  · intro hno
    simp [ChaincodeSupport.LaunchInit, hno]
  · intro hs hd
    simp [ChaincodeSupport.InvokeInit, ChaincodeSupport.LaunchInit, hs,
      ChaincodeDeploymentSpec.GetChaincodeSpec, hd, createCCMessage,
      protoMarshalInput]

/-- Witness for C6 on the slow path with an empty registry and on the fast
path with a populated registry. -/
theorem C6_launchinit_bypasses_lifecycle_witness :
    csEmptyW.LaunchInit cccidW depSpecW =
      (none,
        [Event.launcherLaunch
          { Name := "mycc", Version := "1.0", Path := "p"
            ContainerType := "DOCKER" }]) :=
  (C6_launchinit_bypasses_lifecycle csEmptyW cccidW depSpecW specW
    handlerReadyW).2.1 rfl

/-- C7: on the steady-state path `Launch` resolves the container info through
Lifecycle by (channel id, chaincode name) only when the unit is not
registered; a Lifecycle failure yields a wrapped error without any
`Launcher.Launch` call; and `Invoke` sends a TRANSACTION message carrying the
marshalled decorated input, the context's transaction id, and the context's
channel id. -/
theorem C7_steady_state (cs : ChaincodeSupport) (cccid : CCContext)
    (spec : ChaincodeInvocationSpec) (csp : ChaincodeSpec)
    (ccci : ChaincodeContainerInfo) (e : GoError) (h : Handler) :
    (cs.HandlerRegistry.Handler cccid.GetCanonicalName = none →
      cs.Lifecycle cccid.ChainID (chaincodeSpecName spec.GetChaincodeSpec) =
        .ok ccci →
      cs.Launch cccid spec =
        (cs.Launcher ccci,
          [Event.lifecycleLookup cccid.ChainID
              (chaincodeSpecName spec.GetChaincodeSpec),
            Event.launcherLaunch ccci]))
    ∧ (cs.HandlerRegistry.Handler cccid.GetCanonicalName = none →
        cs.Lifecycle cccid.ChainID (chaincodeSpecName spec.GetChaincodeSpec) =
          .error e →
        cs.Launch cccid spec =
          (some ("[channel " ++ cccid.ChainID ++
              "] failed to get chaincode container info for " ++
              chaincodeSpecName spec.GetChaincodeSpec ++ ": " ++ e),
            [Event.lifecycleLookup cccid.ChainID
              (chaincodeSpecName spec.GetChaincodeSpec)]))
    ∧ (cs.HandlerRegistry.Handler cccid.GetCanonicalName = some h →
        spec.ChaincodeSpec = some csp →
        cs.Invoke cccid spec =
          cs.execute cccid
            { «Type» := ChaincodeMessage_TRANSACTION
              Payload := Bytes.encInput
                { csp.Input with Decorations := cccid.ProposalDecorations }
              Txid := cccid.TxID, ChannelId := cccid.ChainID
              ChaincodeEvent := none }) := by
  refine ⟨?_, ?_, ?_⟩
  · intro hno hok
    simp [ChaincodeSupport.Launch, hno, hok]
  · intro hno herr
    simp [ChaincodeSupport.Launch, hno, herr]
  · intro hs hspec
    simp [ChaincodeSupport.Invoke, ChaincodeInvocationSpec.GetChaincodeSpec,
      hspec, ChaincodeSupport.Launch, hs, createCCMessage, protoMarshalInput]

/-- Witness for C7: with an empty registry, `Launch` consults Lifecycle by
(channel, name) and then launches the resolved container info. -/
theorem C7_steady_state_witness :
    csEmptyW.Launch cccidW invSpecW =
      (none,
        [Event.lifecycleLookup "ch1" "mycc",
          Event.launcherLaunch
            { Name := "mycc", Version := "1.0", Path := "p"
              ContainerType := "DOCKER" }]) :=
  (C7_steady_state csEmptyW cccidW invSpecW specW
    { Name := "mycc", Version := "1.0", Path := "p", ContainerType := "DOCKER" }
    "boom" handlerReadyW).1 rfl rfl

/-- A handler whose `Execute` itself fails with "boom". -/
def handlerBoomW : Handler := constHandler none (some "boom")

/-- Support whose registry maps the fixture canonical name to `handlerBoomW`. -/
def csBoomW : ChaincodeSupport := csWith "mycc:1.0" (some handlerBoomW)

/-- C8 counterexample: with a registered handler whose `Execute` fails with
"boom", the error returned by `Execute` is
"failed to execute transaction tx1: error sending: boom", which mentions
neither the unit canonical name "mycc:1.0" nor the channel id "ch1" — so not
every returned error is wrapped with the canonical name, the transaction id,
and the channel id. -/
theorem C8_error_context_counterexample :
    (csBoomW.Execute cccidW invSpecW).1.2.2 =
      some "failed to execute transaction tx1: error sending: boom"
    ∧ ¬ containsStr "failed to execute transaction tx1: error sending: boom"
      cccidW.GetCanonicalName
    ∧ ¬ containsStr "failed to execute transaction tx1: error sending: boom"
      cccidW.ChainID := by
  refine ⟨by decide, ?_, ?_⟩
  · exact not_containsStr_of_hasSub_eq_false (by decide)
  · exact not_containsStr_of_hasSub_eq_false (by decide)

/-- C8 (amended): every error produced by result interpretation other than
the remote-ERROR error mentions the transaction id (but not, in general, the
canonical name or channel id); the remote-ERROR error carries only the raw
payload text; and the dispatch error, once wrapped at the Execute boundary,
mentions both the transaction id and the canonical name. -/
theorem C8_error_context_amended (cccid : CCContext)
    (resp : Option ChaincodeMessage) (err : Option GoError)
    (cs : ChaincodeSupport) (msg : ChaincodeMessage) :
    (∀ r ev e,
      processChaincodeExecutionResult cccid resp err = (r, ev, some e) →
      containsStr e cccid.TxID ∨
      ∃ m, resp = some m ∧ m.«Type» = ChaincodeMessage_ERROR ∧ err = none ∧
        e = "transaction returned with failure: " ++ m.Payload.asString)
    ∧ (cs.HandlerRegistry.Handler cccid.GetCanonicalName = none →
        processChaincodeExecutionResult cccid (cs.execute cccid msg).1.1
            (cs.execute cccid msg).1.2 =
          (none, none,
            some ("failed to execute transaction " ++ cccid.TxID ++ ": " ++
              ("unable to invoke chaincode " ++ cccid.GetCanonicalName)))) := by
  constructor
  · intro r ev e hpe
    cases err with
    | some e0 =>
      simp only [processChaincodeExecutionResult, Prod.mk.injEq,
        Option.some.injEq] at hpe
      left
      refine ⟨"failed to execute transaction ".toList,
        ": ".toList ++ e0.toList, ?_⟩
      rw [← hpe.2.2]
      simp [toList_append]
    | none =>
      cases resp with
      | none =>
        simp only [processChaincodeExecutionResult, Prod.mk.injEq,
          Option.some.injEq] at hpe
        left
        refine ⟨"nil response from transaction ".toList, [], ?_⟩
        rw [← hpe.2.2]
        simp [toList_append]
      | some m =>
        by_cases hc : m.«Type» = ChaincodeMessage_COMPLETED
        · cases hu : protoUnmarshalResponse m.Payload with
          | ok res =>
            simp [processChaincodeExecutionResult, hc, hu] at hpe
          | error e0 =>
            simp [processChaincodeExecutionResult, hc, hu, Prod.mk.injEq,
              Option.some.injEq] at hpe
            left
            refine ⟨"failed to unmarshal response for transaction ".toList,
              ": ".toList ++ e0.toList, ?_⟩
            rw [← hpe.2.2]
            simp [toList_append]
        · by_cases herr : m.«Type» = ChaincodeMessage_ERROR
          · simp [processChaincodeExecutionResult, hc, herr,
              ChaincodeMessage_ERROR, ChaincodeMessage_COMPLETED,
              Prod.mk.injEq, Option.some.injEq] at hpe
            exact Or.inr ⟨m, rfl, herr, rfl, hpe.2.2.symm⟩
          · simp [processChaincodeExecutionResult, hc, herr, Prod.mk.injEq,
              Option.some.injEq] at hpe
            left
            refine ⟨("unexpected response type " ++ toString m.«Type» ++
              " for transaction ").toList, [], ?_⟩
            rw [← hpe.2.2]
            simp [toList_append]
  · intro hno
    have hx : (cs.execute cccid msg).1 =
        (none, some ("unable to invoke chaincode " ++ cccid.GetCanonicalName)) := by
      simp [ChaincodeSupport.execute, hno]
    rw [hx]
    simp [processChaincodeExecutionResult]

/-- Witness for the amended C8 at the remote-failure fixture: the unmarshal
and wrapped-dispatch branches at concrete inputs. -/
theorem C8_error_context_amended_witness :
    containsStr "nil response from transaction tx1" "tx1" ∨
    ∃ m, (none : Option ChaincodeMessage) = some m ∧
      m.«Type» = ChaincodeMessage_ERROR ∧ (none : Option GoError) = none ∧
      "nil response from transaction tx1" =
        "transaction returned with failure: " ++ m.Payload.asString :=
  (C8_error_context_amended cccidW none none csEmptyW msgReadyW).1
    none none "nil response from transaction tx1" (by decide)

/-- C9: an ERROR response carrying a non-nil event returns that event —
stamped with the unit name and transaction id — together with the non-nil
error: the failure branch does not discard the event. -/
theorem C9_error_event_returned (cccid : CCContext) (msg : ChaincodeMessage)
    (ev : ChaincodeEvent) (cs : ChaincodeSupport)
    (spec : ChaincodeInvocationSpec) (csp : ChaincodeSpec) (h : Handler)
    (hty : msg.«Type» = ChaincodeMessage_ERROR)
    (hev : msg.ChaincodeEvent = some ev) :
    processChaincodeExecutionResult cccid (some msg) none =
      (none, some { ev with ChaincodeId := cccid.Name, TxId := cccid.TxID },
        some ("transaction returned with failure: " ++ msg.Payload.asString))
    ∧ (cs.HandlerRegistry.Handler cccid.GetCanonicalName = some h →
        (∀ c m t, h.Execute c m t = (some msg, none)) →
        spec.ChaincodeSpec = some csp →
        (cs.Execute cccid spec).1 =
          (none,
            some { ev with ChaincodeId := cccid.Name, TxId := cccid.TxID },
            some ("transaction returned with failure: " ++
              msg.Payload.asString))) := by
  have herr : processChaincodeExecutionResult cccid (some msg) none =
      (none, some { ev with ChaincodeId := cccid.Name, TxId := cccid.TxID },
        some ("transaction returned with failure: " ++ msg.Payload.asString)) := by
    simp [processChaincodeExecutionResult, hty, hev, ChaincodeMessage_ERROR,
      ChaincodeMessage_COMPLETED]
  refine ⟨herr, ?_⟩
  intro hreg hexec hspec
  have hinv : (cs.Invoke cccid spec).1 = (some msg, none) := by
    simp [ChaincodeSupport.Invoke, ChaincodeInvocationSpec.GetChaincodeSpec,
      hspec, ChaincodeSupport.Launch, hreg, createCCMessage, protoMarshalInput,
      ChaincodeSupport.execute, hexec]
  show processChaincodeExecutionResult cccid (cs.Invoke cccid spec).1.1
    (cs.Invoke cccid spec).1.2 = _
  rw [hinv]
  exact herr

/-- Witness for C9 at the remote-failure fixture, whose ERROR message carries
an event. -/
theorem C9_error_event_returned_witness :
    (csErrorW.Execute cccidW invSpecW).1 =
      (none,
        some { ChaincodeId := "mycc", TxId := "tx1", EventName := "transfer"
               Payload := "evp" },
        some ("transaction returned with failure: " ++ "insufficient funds")) :=
  (C9_error_event_returned cccidW msgErrorW eventW csErrorW invSpecW specW
    handlerErrorW rfl rfl).2 rfl (fun _ _ _ => rfl) rfl

/-- An invocation spec with a nil embedded chaincode spec. -/
def invSpecNilW : ChaincodeInvocationSpec := { ChaincodeSpec := none }

/-- A deployment spec with a nil embedded chaincode spec. -/
def depSpecNilW : ChaincodeDeploymentSpec :=
  { ChaincodeSpec := none, CodePackage := "pkg" }

/-- C10: `Invoke` rejects a nil chaincode spec before any launch (empty
trace), while `InvokeInit` launches first and checks the spec only
afterwards, so a nil spec in the deployment descriptor still causes a
`Launcher.Launch` call before the "chaincode spec is nil" error. -/
theorem C10_nil_spec_ordering (cs : ChaincodeSupport) (cccid : CCContext)
    (spec : ChaincodeInvocationSpec) (dspec : ChaincodeDeploymentSpec)
    (hspec : spec.ChaincodeSpec = none)
    (hdspec : dspec.ChaincodeSpec = none) :
    cs.Invoke cccid spec = ((none, some "chaincode spec is nil"), [])
    ∧ ((cs.LaunchInit cccid dspec).1 = none →
        cs.InvokeInit cccid dspec =
          ((none, some "chaincode spec is nil"), (cs.LaunchInit cccid dspec).2))
    ∧ (cs.HandlerRegistry.Handler cccid.GetCanonicalName = none →
        (cs.InvokeInit cccid dspec).2 =
          [Event.launcherLaunch
            { DeploymentSpecToChaincodeContainerInfo dspec with
                Version := cccid.Version }]) := by
  refine ⟨?_, ?_, ?_⟩
  · simp [ChaincodeSupport.Invoke, ChaincodeInvocationSpec.GetChaincodeSpec,
      hspec]
  · intro hl
    rcases hLI : cs.LaunchInit cccid dspec with ⟨o, tr⟩
    rw [hLI] at hl
    simp at hl
    subst hl
    simp [ChaincodeSupport.InvokeInit, hLI,
      ChaincodeDeploymentSpec.GetChaincodeSpec, hdspec]
  · intro hno
    have hLI : cs.LaunchInit cccid dspec =
        (cs.Launcher
            { DeploymentSpecToChaincodeContainerInfo dspec with
                Version := cccid.Version },
          [Event.launcherLaunch
            { DeploymentSpecToChaincodeContainerInfo dspec with
                Version := cccid.Version }]) := by
      simp [ChaincodeSupport.LaunchInit, hno]
    cases hL : cs.Launcher
        { DeploymentSpecToChaincodeContainerInfo dspec with
            Version := cccid.Version } with
    | none =>
      simp [ChaincodeSupport.InvokeInit, hLI, hL,
        ChaincodeDeploymentSpec.GetChaincodeSpec, hdspec]
    | some e =>
      simp [ChaincodeSupport.InvokeInit, hLI, hL,
        ChaincodeDeploymentSpec.GetChaincodeSpec, hdspec]

/-- Witness for C10: at an empty registry, a nil-spec `Invoke` fails with no
trace while a nil-spec `InvokeInit` still performs a launch. -/
theorem C10_nil_spec_ordering_witness :
    csEmptyW.Invoke cccidW invSpecNilW =
      ((none, some "chaincode spec is nil"), [])
    ∧ (csEmptyW.InvokeInit cccidW depSpecNilW).2 =
      [Event.launcherLaunch
        { Name := "", Version := "1.0", Path := "", ContainerType := "" }] :=
  ⟨(C10_nil_spec_ordering csEmptyW cccidW invSpecNilW depSpecNilW rfl rfl).1,
    (C10_nil_spec_ordering csEmptyW cccidW invSpecNilW depSpecNilW rfl
      rfl).2.2 rfl⟩
